import Mathlib

/-!
Verification of the Celestia node REST client (`src/lib.rs`, `src/types.rs`)
against its natural-language specification.

The client is embedded shallowly:

* JSON documents are the inductive `Json`; numbers are integers, which is
  all the client's schemas use (fractional numbers never deserialise into
  any of its integer-typed fields), and `chrono` timestamps are modelled as
  their RFC3339 string rendering, which is how they travel on the wire.
* Each `#[derive(Deserialize, Serialize)]` struct becomes a Lean structure
  with an `encode` function (serde serialisation: a JSON object listing the
  fields in declaration order, `Option` fields rendered as `null` when
  absent) and a `decode` function (serde deserialisation: required fields
  must be present with the right type, `u32`/`i64` fields are range-checked,
  `Option` fields tolerate both absence and `null`, unknown fields are
  ignored).
* The network is a function `Server : String → Except String Body` mapping
  a request URL either to a transport error (the payload string stands for
  the underlying `reqwest` error value, carried verbatim) or to a response
  body; a body is either parseable JSON or raw text that is not JSON.
* `Context.call` mirrors `Context::call`: it builds
  `base_url ++ "/" ++ endpoint`, performs one GET against the server, and
  deserialises the body; besides the result it returns the list of URLs it
  requested, so that "exactly one request, at exactly this URL" is a
  provable statement.
-/

namespace Celestia

/-- JSON values, with integer numerics. -/
inductive Json where
  | null : Json
  | bool (b : Bool) : Json
  | num (n : Int) : Json
  | str (s : String) : Json
  | arr (xs : List Json) : Json
  | obj (fields : List (String × Json)) : Json

/-- First value bound to `key` in the field list of a JSON object. -/
def lookupField : List (String × Json) → String → Option Json
  | [], _ => none
  | (k, v) :: rest, key => if k = key then some v else lookupField rest key

/-- Field access on a JSON object; `none` on non-objects and missing keys. -/
def Json.getField (j : Json) (key : String) : Option Json :=
  match j with
  | .obj fields => lookupField fields key
  | _ => none

/-- serde deserialisation of `String`. -/
def Json.asString : Json → Option String
  | .str s => some s
  | _ => none

/-- serde deserialisation of `bool`. -/
def Json.asBool : Json → Option Bool
  | .bool b => some b
  | _ => none

/-- serde deserialisation of `u32`: a non-negative integer below `2 ^ 32`.
Negative numbers (`Int.negSucc`) and non-numbers fall to the catch-all. -/
def Json.asU32 : Json → Option Nat
  | .num (.ofNat n) => if n < 2 ^ 32 then some n else none
  | _ => none

/-- serde deserialisation of `i64`: an integer in `[-2 ^ 63, 2 ^ 63)`.
`Int.negSucc n` denotes `-(n + 1)`, so its bound is also `n < 2 ^ 63`. -/
def Json.asI64 : Json → Option Int
  | .num (.ofNat n) => if n < 2 ^ 63 then some (.ofNat n) else none
  | .num (.negSucc n) => if n < 2 ^ 63 then some (.negSucc n) else none
  | _ => none

/-- serde deserialisation of `Vec<T>`: an array whose every element
deserialises as `T`. -/
def Json.asListOf {α : Type} (dec : Json → Option α) : Json → Option (List α)
  | .arr xs => xs.mapM dec
  | _ => none

/-- serde deserialisation of an `Option<T>` struct field: an absent field
and an explicit `null` both give `none`; any other value must deserialise
as `T`. -/
def decodeOptField {α : Type} (dec : Json → Option α) : Option Json → Option (Option α)
  | none => some none
  | some .null => some none
  | some j => (dec j).map some

/-- serde serialisation of an `Option<T>` struct field: `None` is `null`. -/
def encodeOptField {α : Type} (enc : α → Json) : Option α → Json
  | none => .null
  | some x => enc x

/-- serde serialisation of `Vec<String>`. -/
def encodeStringList (xs : List String) : Json :=
  .arr (xs.map .str)

/-! ## Response types (src/lib.rs lines 29-67, src/types.rs)

Each Rust struct keeps its name and field order.  `u32` fields are `Nat`
carrying a value below `2 ^ 32`, the `i64` field is an `Int` in the 64-bit
signed range; the well-formedness predicate `WF` of a structure records
exactly these machine-integer ranges, which every value of the Rust type
satisfies by construction. -/

/-- `struct BalanceResponse { denom: String, amount: u32 }`. -/
structure BalanceResponse where
  denom : String
  amount : Nat
deriving Repr, DecidableEq

def BalanceResponse.encode (v : BalanceResponse) : Json :=
  .obj [("denom", .str v.denom), ("amount", .num v.amount)]

def BalanceResponse.decode (j : Json) : Option BalanceResponse :=
  ((j.getField "denom").bind Json.asString).bind fun denom =>
  ((j.getField "amount").bind Json.asU32).bind fun amount =>
  some ⟨denom, amount⟩

def BalanceResponse.WF (v : BalanceResponse) : Prop := v.amount < 2 ^ 32

instance : DecidablePred BalanceResponse.WF := fun v =>
  inferInstanceAs (Decidable (v.amount < 2 ^ 32))

/-- `struct DataAvailableResponse { available: bool,
probability_of_availability: String }`. -/
structure DataAvailableResponse where
  available : Bool
  probability_of_availability : String
deriving Repr, DecidableEq

def DataAvailableResponse.encode (v : DataAvailableResponse) : Json :=
  .obj [("available", .bool v.available),
        ("probability_of_availability", .str v.probability_of_availability)]

def DataAvailableResponse.decode (j : Json) : Option DataAvailableResponse :=
  ((j.getField "available").bind Json.asBool).bind fun available =>
  ((j.getField "probability_of_availability").bind Json.asString).bind fun prob =>
  some ⟨available, prob⟩

/-- `struct Version { block: u32, app: u32 }` (src/types.rs). -/
structure Version where
  block : Nat
  app : Nat
deriving Repr, DecidableEq

def Version.encode (v : Version) : Json :=
  .obj [("block", .num v.block), ("app", .num v.app)]

def Version.decode (j : Json) : Option Version :=
  ((j.getField "block").bind Json.asU32).bind fun block =>
  ((j.getField "app").bind Json.asU32).bind fun app =>
  some ⟨block, app⟩

def Version.WF (v : Version) : Prop := v.block < 2 ^ 32 ∧ v.app < 2 ^ 32

instance : DecidablePred Version.WF := fun v =>
  inferInstanceAs (Decidable (v.block < 2 ^ 32 ∧ v.app < 2 ^ 32))

/-- `struct Parts { total: u32, hash: String }`. -/
structure Parts where
  total : Nat
  hash : String
deriving Repr, DecidableEq

def Parts.encode (v : Parts) : Json :=
  .obj [("total", .num v.total), ("hash", .str v.hash)]

def Parts.decode (j : Json) : Option Parts :=
  ((j.getField "total").bind Json.asU32).bind fun total =>
  ((j.getField "hash").bind Json.asString).bind fun hash =>
  some ⟨total, hash⟩

def Parts.WF (v : Parts) : Prop := v.total < 2 ^ 32

instance : DecidablePred Parts.WF := fun v =>
  inferInstanceAs (Decidable (v.total < 2 ^ 32))

/-- `struct BlockId { hash: String, parts: Parts }`. -/
structure BlockId where
  hash : String
  parts : Parts
deriving Repr, DecidableEq

def BlockId.encode (v : BlockId) : Json :=
  .obj [("hash", .str v.hash), ("parts", v.parts.encode)]

def BlockId.decode (j : Json) : Option BlockId :=
  ((j.getField "hash").bind Json.asString).bind fun hash =>
  ((j.getField "parts").bind Parts.decode).bind fun parts =>
  some ⟨hash, parts⟩

def BlockId.WF (v : BlockId) : Prop := v.parts.WF

instance : DecidablePred BlockId.WF := fun v =>
  inferInstanceAs (Decidable v.parts.WF)

/-- `struct Header { version, chain_id, height: u32, time, last_block_id,
last_commit_hash, data_hash, validators_hash, next_validators_hash,
consensus_hash, app_hash, last_results_hash, evidence_hash,
proposer_address }`; `time: DateTime<Utc>` is modelled as its RFC3339
string. -/
structure Header where
  version : Version
  chain_id : String
  height : Nat
  time : String
  last_block_id : BlockId
  last_commit_hash : String
  data_hash : String
  validators_hash : String
  next_validators_hash : String
  consensus_hash : String
  app_hash : String
  last_results_hash : String
  evidence_hash : String
  proposer_address : String
deriving Repr, DecidableEq

def Header.encode (v : Header) : Json :=
  .obj [("version", v.version.encode),
        ("chain_id", .str v.chain_id),
        ("height", .num v.height),
        ("time", .str v.time),
        ("last_block_id", v.last_block_id.encode),
        ("last_commit_hash", .str v.last_commit_hash),
        ("data_hash", .str v.data_hash),
        ("validators_hash", .str v.validators_hash),
        ("next_validators_hash", .str v.next_validators_hash),
        ("consensus_hash", .str v.consensus_hash),
        ("app_hash", .str v.app_hash),
        ("last_results_hash", .str v.last_results_hash),
        ("evidence_hash", .str v.evidence_hash),
        ("proposer_address", .str v.proposer_address)]

def Header.decode (j : Json) : Option Header :=
  ((j.getField "version").bind Version.decode).bind fun version =>
  ((j.getField "chain_id").bind Json.asString).bind fun chain_id =>
  ((j.getField "height").bind Json.asU32).bind fun height =>
  ((j.getField "time").bind Json.asString).bind fun time =>
  ((j.getField "last_block_id").bind BlockId.decode).bind fun last_block_id =>
  ((j.getField "last_commit_hash").bind Json.asString).bind fun last_commit_hash =>
  ((j.getField "data_hash").bind Json.asString).bind fun data_hash =>
  ((j.getField "validators_hash").bind Json.asString).bind fun validators_hash =>
  ((j.getField "next_validators_hash").bind Json.asString).bind fun next_validators_hash =>
  ((j.getField "consensus_hash").bind Json.asString).bind fun consensus_hash =>
  ((j.getField "app_hash").bind Json.asString).bind fun app_hash =>
  ((j.getField "last_results_hash").bind Json.asString).bind fun last_results_hash =>
  ((j.getField "evidence_hash").bind Json.asString).bind fun evidence_hash =>
  ((j.getField "proposer_address").bind Json.asString).bind fun proposer_address =>
  some ⟨version, chain_id, height, time, last_block_id, last_commit_hash, data_hash,
        validators_hash, next_validators_hash, consensus_hash, app_hash,
        last_results_hash, evidence_hash, proposer_address⟩

def Header.WF (v : Header) : Prop :=
  v.version.WF ∧ v.height < 2 ^ 32 ∧ v.last_block_id.WF

instance : DecidablePred Header.WF := fun v =>
  inferInstanceAs (Decidable (v.version.WF ∧ v.height < 2 ^ 32 ∧ v.last_block_id.WF))

/-- `struct Signature { block_id_flag: u32, validator_address: String,
timestamp: DateTime<Utc>, signature: Option<String> }`. -/
structure Signature where
  block_id_flag : Nat
  validator_address : String
  timestamp : String
  signature : Option String
deriving Repr, DecidableEq

def Signature.encode (v : Signature) : Json :=
  .obj [("block_id_flag", .num v.block_id_flag),
        ("validator_address", .str v.validator_address),
        ("timestamp", .str v.timestamp),
        ("signature", encodeOptField .str v.signature)]

def Signature.decode (j : Json) : Option Signature :=
  ((j.getField "block_id_flag").bind Json.asU32).bind fun block_id_flag =>
  ((j.getField "validator_address").bind Json.asString).bind fun validator_address =>
  ((j.getField "timestamp").bind Json.asString).bind fun timestamp =>
  (decodeOptField Json.asString (j.getField "signature")).bind fun signature =>
  some ⟨block_id_flag, validator_address, timestamp, signature⟩

def Signature.WF (v : Signature) : Prop := v.block_id_flag < 2 ^ 32

instance : DecidablePred Signature.WF := fun v =>
  inferInstanceAs (Decidable (v.block_id_flag < 2 ^ 32))

/-- `struct Commit { height: u32, round: u32, block_id: BlockId,
signatures: Vec<Signature> }`. -/
structure Commit where
  height : Nat
  round : Nat
  block_id : BlockId
  signatures : List Signature
deriving Repr, DecidableEq

def Commit.encode (v : Commit) : Json :=
  .obj [("height", .num v.height),
        ("round", .num v.round),
        ("block_id", v.block_id.encode),
        ("signatures", .arr (v.signatures.map Signature.encode))]

def Commit.decode (j : Json) : Option Commit :=
  ((j.getField "height").bind Json.asU32).bind fun height =>
  ((j.getField "round").bind Json.asU32).bind fun round =>
  ((j.getField "block_id").bind BlockId.decode).bind fun block_id =>
  ((j.getField "signatures").bind (Json.asListOf Signature.decode)).bind fun signatures =>
  some ⟨height, round, block_id, signatures⟩

def Commit.WF (v : Commit) : Prop :=
  v.height < 2 ^ 32 ∧ v.round < 2 ^ 32 ∧ v.block_id.WF ∧ ∀ s ∈ v.signatures, s.WF

instance : DecidablePred Commit.WF := fun v =>
  inferInstanceAs (Decidable (v.height < 2 ^ 32 ∧ v.round < 2 ^ 32 ∧ v.block_id.WF ∧
    ∀ s ∈ v.signatures, s.WF))

/-- `struct Validator { address: String, pub_key: String, voting_power: u32,
proposer_priority: i64 }`. -/
structure Validator where
  address : String
  pub_key : String
  voting_power : Nat
  proposer_priority : Int
deriving Repr, DecidableEq

def Validator.encode (v : Validator) : Json :=
  .obj [("address", .str v.address),
        ("pub_key", .str v.pub_key),
        ("voting_power", .num v.voting_power),
        ("proposer_priority", .num v.proposer_priority)]

def Validator.decode (j : Json) : Option Validator :=
  ((j.getField "address").bind Json.asString).bind fun address =>
  ((j.getField "pub_key").bind Json.asString).bind fun pub_key =>
  ((j.getField "voting_power").bind Json.asU32).bind fun voting_power =>
  ((j.getField "proposer_priority").bind Json.asI64).bind fun proposer_priority =>
  some ⟨address, pub_key, voting_power, proposer_priority⟩

def Validator.WF (v : Validator) : Prop :=
  v.voting_power < 2 ^ 32 ∧ -2 ^ 63 ≤ v.proposer_priority ∧ v.proposer_priority < 2 ^ 63

instance : DecidablePred Validator.WF := fun v =>
  inferInstanceAs (Decidable (v.voting_power < 2 ^ 32 ∧ -2 ^ 63 ≤ v.proposer_priority ∧
    v.proposer_priority < 2 ^ 63))

/-- `struct ValidatorSet { validators: Vec<Validator> }`. -/
structure ValidatorSet where
  validators : List Validator
deriving Repr, DecidableEq

def ValidatorSet.encode (v : ValidatorSet) : Json :=
  .obj [("validators", .arr (v.validators.map Validator.encode))]

def ValidatorSet.decode (j : Json) : Option ValidatorSet :=
  ((j.getField "validators").bind (Json.asListOf Validator.decode)).bind fun validators =>
  some ⟨validators⟩

def ValidatorSet.WF (v : ValidatorSet) : Prop := ∀ x ∈ v.validators, x.WF

instance : DecidablePred ValidatorSet.WF := fun v =>
  inferInstanceAs (Decidable (∀ x ∈ v.validators, x.WF))

/-- `struct DataAvailabilityHeader { row_roots: Vec<String>,
column_roots: Vec<String> }`. -/
structure DataAvailabilityHeader where
  row_roots : List String
  column_roots : List String
deriving Repr, DecidableEq

def DataAvailabilityHeader.encode (v : DataAvailabilityHeader) : Json :=
  .obj [("row_roots", encodeStringList v.row_roots),
        ("column_roots", encodeStringList v.column_roots)]

def DataAvailabilityHeader.decode (j : Json) : Option DataAvailabilityHeader :=
  ((j.getField "row_roots").bind (Json.asListOf Json.asString)).bind fun row_roots =>
  ((j.getField "column_roots").bind (Json.asListOf Json.asString)).bind fun column_roots =>
  some ⟨row_roots, column_roots⟩

/-- `struct HeadResponse { header, commit, validator_set, dah }`. -/
structure HeadResponse where
  header : Header
  commit : Commit
  validator_set : ValidatorSet
  dah : DataAvailabilityHeader
deriving Repr, DecidableEq

def HeadResponse.encode (v : HeadResponse) : Json :=
  .obj [("header", v.header.encode),
        ("commit", v.commit.encode),
        ("validator_set", v.validator_set.encode),
        ("dah", v.dah.encode)]

def HeadResponse.decode (j : Json) : Option HeadResponse :=
  ((j.getField "header").bind Header.decode).bind fun header =>
  ((j.getField "commit").bind Commit.decode).bind fun commit =>
  ((j.getField "validator_set").bind ValidatorSet.decode).bind fun validator_set =>
  ((j.getField "dah").bind DataAvailabilityHeader.decode).bind fun dah =>
  some ⟨header, commit, validator_set, dah⟩

def HeadResponse.WF (v : HeadResponse) : Prop :=
  v.header.WF ∧ v.commit.WF ∧ v.validator_set.WF

instance : DecidablePred HeadResponse.WF := fun v =>
  inferInstanceAs (Decidable (v.header.WF ∧ v.commit.WF ∧ v.validator_set.WF))

/-- `struct HeaderResponse { header, commit, validator_set, dah }` — the
same shape as `HeadResponse`, declared separately in the source. -/
structure HeaderResponse where
  header : Header
  commit : Commit
  validator_set : ValidatorSet
  dah : DataAvailabilityHeader
deriving Repr, DecidableEq

def HeaderResponse.encode (v : HeaderResponse) : Json :=
  .obj [("header", v.header.encode),
        ("commit", v.commit.encode),
        ("validator_set", v.validator_set.encode),
        ("dah", v.dah.encode)]

def HeaderResponse.decode (j : Json) : Option HeaderResponse :=
  ((j.getField "header").bind Header.decode).bind fun header =>
  ((j.getField "commit").bind Commit.decode).bind fun commit =>
  ((j.getField "validator_set").bind ValidatorSet.decode).bind fun validator_set =>
  ((j.getField "dah").bind DataAvailabilityHeader.decode).bind fun dah =>
  some ⟨header, commit, validator_set, dah⟩

def HeaderResponse.WF (v : HeaderResponse) : Prop :=
  v.header.WF ∧ v.commit.WF ∧ v.validator_set.WF

instance : DecidablePred HeaderResponse.WF := fun v =>
  inferInstanceAs (Decidable (v.header.WF ∧ v.commit.WF ∧ v.validator_set.WF))

/-- `struct NamespacedDataResponse { data: Vec<String>, height: u32 }` —
the `data` field is required. -/
structure NamespacedDataResponse where
  data : List String
  height : Nat
deriving Repr, DecidableEq

def NamespacedDataResponse.encode (v : NamespacedDataResponse) : Json :=
  .obj [("data", encodeStringList v.data), ("height", .num v.height)]

def NamespacedDataResponse.decode (j : Json) : Option NamespacedDataResponse :=
  ((j.getField "data").bind (Json.asListOf Json.asString)).bind fun data =>
  ((j.getField "height").bind Json.asU32).bind fun height =>
  some ⟨data, height⟩

def NamespacedDataResponse.WF (v : NamespacedDataResponse) : Prop := v.height < 2 ^ 32

instance : DecidablePred NamespacedDataResponse.WF := fun v =>
  inferInstanceAs (Decidable (v.height < 2 ^ 32))

/-- `struct NamespacedSharesResponse { shares: Option<Vec<String>>,
height: u32 }` — the `shares` field is optional. -/
structure NamespacedSharesResponse where
  shares : Option (List String)
  height : Nat
deriving Repr, DecidableEq

def NamespacedSharesResponse.encode (v : NamespacedSharesResponse) : Json :=
  .obj [("shares", encodeOptField encodeStringList v.shares), ("height", .num v.height)]

def NamespacedSharesResponse.decode (j : Json) : Option NamespacedSharesResponse :=
  (decodeOptField (Json.asListOf Json.asString) (j.getField "shares")).bind fun shares =>
  ((j.getField "height").bind Json.asU32).bind fun height =>
  some ⟨shares, height⟩

def NamespacedSharesResponse.WF (v : NamespacedSharesResponse) : Prop := v.height < 2 ^ 32

instance : DecidablePred NamespacedSharesResponse.WF := fun v =>
  inferInstanceAs (Decidable (v.height < 2 ^ 32))

/-! ## The client context and its operations (src/lib.rs) -/

/-- An HTTP response body: either parseable JSON, or raw text that is not
valid JSON (and therefore deserialises into none of the response types). -/
inductive Body where
  | json (j : Json) : Body
  | raw (s : String) : Body

/-- The network as seen through one GET request: a map from the request URL
to either a transport error (connection refused, timeout, ...; the string
payload stands for the underlying error value and is carried verbatim) or
a response body. -/
abbrev Server : Type := String → Except String Body

/-- The two kinds of `reqwest::Error` the client can surface: the transport
error from `send()`, carried verbatim, or the deserialisation error from
`json::<T>()`. -/
inductive CallError where
  | transport (e : String) : CallError
  | decode : CallError
deriving Repr, DecidableEq

/-- What one operation did: its result, and the list of URLs it requested
(in order), which makes "exactly one GET, at exactly this URL" provable. -/
structure CallResult (T : Type) where
  result : Except CallError T
  requests : List String

/-- `pub const DEFAULT_BASE_URL` (src/lib.rs line 12). -/
def DEFAULT_BASE_URL : String := "http://localhost:26658"

def ENDPOINT_BALANCE : String := "balance"

def ENDPOINT_DATA_AVAILABLE : String := "data_available"

def ENDPOINT_HEAD : String := "head"

def ENDPOINT_HEADER : String := "header"

def ENDPOINT_NAMESPACED_DATA : String := "namespaced_data"

def ENDPOINT_NAMESPACED_SHARES : String := "namespaced_shares"

def KEY_HEIGHT : String := "height"

/-- `struct Context { base_url: String, client: reqwest::Client }`.  The
client handle holds no observable state of its own; the network it talks
to is the `Server` argument threaded through each call. -/
structure Context where
  base_url : String

/-- `Context::new`: stores the base URL unchanged; pure value construction,
it cannot fail. -/
def Context.new (base_url : String) : Context :=
  ⟨base_url⟩

/-- `response.json::<T>()`: parse the body as JSON, then deserialise. -/
def decodeBody {T : Type} (dec : Json → Option T) : Body → Option T
  | .json j => dec j
  | .raw _ => none

/-- `Context::call`: format `base_url ++ "/" ++ endpoint`, perform one GET,
propagate a transport error verbatim, otherwise deserialise the body and
propagate a deserialisation failure; no retry. -/
def Context.call {T : Type} (ctx : Context) (dec : Json → Option T) (endpoint : String)
    (server : Server) : CallResult T :=
  let url := ctx.base_url ++ "/" ++ endpoint
  { result :=
      match server url with
      | .error e => .error (.transport e)
      | .ok body =>
          match decodeBody dec body with
          | some v => .ok v
          | none => .error .decode
    requests := [url] }

/-- `Context::balance`: path `balance/{address}` when an address is given,
plain `balance` otherwise. -/
def Context.balance (ctx : Context) (address : Option String) (server : Server) :
    CallResult BalanceResponse :=
  let url := match address with
    | some address => ENDPOINT_BALANCE ++ "/" ++ address
    | none => ENDPOINT_BALANCE
  ctx.call BalanceResponse.decode url server

/-- `Context::data_available`: path `data_available/{height}`; the height is
a `u64` formatted in decimal. -/
def Context.data_available (ctx : Context) (height : Nat) (server : Server) :
    CallResult DataAvailableResponse :=
  ctx.call DataAvailableResponse.decode (ENDPOINT_DATA_AVAILABLE ++ "/" ++ toString height)
    server

/-- `Context::head`: path `head`. -/
def Context.head (ctx : Context) (server : Server) : CallResult HeadResponse :=
  ctx.call HeadResponse.decode ENDPOINT_HEAD server

/-- `Context::header`: path `header/{height}`. -/
def Context.header (ctx : Context) (height : Nat) (server : Server) :
    CallResult HeaderResponse :=
  ctx.call HeaderResponse.decode (ENDPOINT_HEADER ++ "/" ++ toString height) server

/-- `Context::namespaced_data`: path `namespaced_data/{id}/height/{h}` when a
height is given, `namespaced_data/{id}` otherwise. -/
def Context.namespaced_data (ctx : Context) (namespace_id : String) (height : Option Nat)
    (server : Server) : CallResult NamespacedDataResponse :=
  let url := match height with
    | some height =>
        ENDPOINT_NAMESPACED_DATA ++ "/" ++ namespace_id ++ "/" ++ KEY_HEIGHT ++ "/"
          ++ toString height
    | none => ENDPOINT_NAMESPACED_DATA ++ "/" ++ namespace_id
  ctx.call NamespacedDataResponse.decode url server

/-- `Context::namespaced_shares`: path `namespaced_shares/{id}/height/{h}`
when a height is given, `namespaced_shares/{id}` otherwise. -/
def Context.namespaced_shares (ctx : Context) (namespace_id : String) (height : Option Nat)
    (server : Server) : CallResult NamespacedSharesResponse :=
  let url := match height with
    | some height =>
        ENDPOINT_NAMESPACED_SHARES ++ "/" ++ namespace_id ++ "/" ++ KEY_HEIGHT ++ "/"
          ++ toString height
    | none => ENDPOINT_NAMESPACED_SHARES ++ "/" ++ namespace_id
  ctx.call NamespacedSharesResponse.decode url server

/-- Path segments of a string, split at every `/` character (an observation
function for stating what the composed URL paths look like). -/
def splitSlash : List Char → List (List Char)
  | [] => [[]]
  | c :: rest =>
    match splitSlash rest with
    | [] => [[]]
    | seg :: segs => if c = '/' then [] :: seg :: segs else (c :: seg) :: segs

/-! ## Round-trip lemmas for the scalar deserialisers -/

theorem asString_str (s : String) : Json.asString (.str s) = some s := rfl

theorem asBool_bool (b : Bool) : Json.asBool (.bool b) = some b := rfl

theorem asU32_cast (n : Nat) (h : n < 2 ^ 32) : Json.asU32 (.num n) = some n := by
  show Json.asU32 (.num (.ofNat n)) = some n
  simp [Json.asU32]
  omega

theorem asU32_some_lt (j : Json) (n : Nat) (h : Json.asU32 j = some n) : n < 2 ^ 32 := by
  match j with
  | .num (.ofNat m) =>
      simp only [Json.asU32] at h
      split at h
      · cases h; omega
      · cases h
  | .num (.negSucc m) => simp [Json.asU32] at h
  | .null | .bool _ | .str _ | .arr _ | .obj _ => simp [Json.asU32] at h

theorem asU32_out_of_range (a : Int) (h : a < 0 ∨ (2 : Int) ^ 32 - 1 < a) :
    Json.asU32 (.num a) = none := by
  match a with
  | .ofNat m =>
      have hm : ¬ m < 2 ^ 32 := by
        rcases h with h | h
        · rw [Int.ofNat_eq_natCast] at h; omega
        · rw [Int.ofNat_eq_natCast] at h; omega
      simp only [Json.asU32]
      rw [if_neg hm]
  | .negSucc m => rfl

theorem asI64_range (n : Int) (h1 : -2 ^ 63 ≤ n) (h2 : n < 2 ^ 63) :
    Json.asI64 (.num n) = some n := by
  match n with
  | .ofNat m =>
    show Json.asI64 (.num (.ofNat m)) = some (.ofNat m)
    rw [Int.ofNat_eq_natCast] at h2
    have hm : m < 2 ^ 63 := by omega
    simp [Json.asI64]
    omega
  | .negSucc m =>
    show Json.asI64 (.num (.negSucc m)) = some (.negSucc m)
    rw [Int.negSucc_eq] at h1
    have hm : m < 2 ^ 63 := by omega
    simp [Json.asI64]
    omega

theorem asListOf_map {α : Type} (dec : Json → Option α) (enc : α → Json) (xs : List α)
    (h : ∀ x ∈ xs, dec (enc x) = some x) :
    Json.asListOf dec (.arr (xs.map enc)) = some xs := by
  simp only [Json.asListOf]
  induction xs with
  | nil => rfl
  | cons x rest ih =>
      rw [List.map_cons, List.mapM_cons, h x (List.mem_cons_self x rest),
        ih (fun y hy => h y (List.mem_cons_of_mem x hy))]
      rfl

theorem asStringList_map (xs : List String) :
    Json.asListOf Json.asString (encodeStringList xs) = some xs :=
  asListOf_map Json.asString Json.str xs (fun _ _ => rfl)

/-! ## Round-trip lemmas for the response types -/

theorem rt_balance (v : BalanceResponse) (h : v.WF) :
    BalanceResponse.decode (BalanceResponse.encode v) = some v := by
  simp [BalanceResponse.decode, BalanceResponse.encode, Json.getField, lookupField,
    Json.asString, asU32_cast v.amount h]

theorem rt_data_available (v : DataAvailableResponse) :
    DataAvailableResponse.decode (DataAvailableResponse.encode v) = some v := by
  simp [DataAvailableResponse.decode, DataAvailableResponse.encode, Json.getField,
    lookupField, Json.asString, Json.asBool]

theorem rt_version (v : Version) (h : v.WF) :
    Version.decode (Version.encode v) = some v := by
  obtain ⟨h1, h2⟩ := h
  simp [Version.decode, Version.encode, Json.getField, lookupField,
    asU32_cast v.block h1, asU32_cast v.app h2]

theorem rt_parts (v : Parts) (h : v.WF) :
    Parts.decode (Parts.encode v) = some v := by
  simp [Parts.decode, Parts.encode, Json.getField, lookupField, Json.asString,
    asU32_cast v.total h]

theorem rt_block_id (v : BlockId) (h : v.WF) :
    BlockId.decode (BlockId.encode v) = some v := by
  simp [BlockId.decode, BlockId.encode, Json.getField, lookupField, Json.asString,
    rt_parts v.parts h]

theorem rt_header (v : Header) (h : v.WF) :
    Header.decode (Header.encode v) = some v := by
  obtain ⟨h1, h2, h3⟩ := h
  simp [Header.decode, Header.encode, Json.getField, lookupField, Json.asString,
    rt_version v.version h1, asU32_cast v.height h2, rt_block_id v.last_block_id h3]

theorem rt_signature (v : Signature) (h : v.WF) :
    Signature.decode (Signature.encode v) = some v := by
  obtain ⟨f, va, ts, sig⟩ := v
  cases sig with
  | none =>
      simp [Signature.decode, Signature.encode, Json.getField, lookupField,
        Json.asString, asU32_cast f h, encodeOptField, decodeOptField]
  | some s =>
      simp [Signature.decode, Signature.encode, Json.getField, lookupField,
        Json.asString, asU32_cast f h, encodeOptField, decodeOptField]

theorem rt_commit (v : Commit) (h : v.WF) :
    Commit.decode (Commit.encode v) = some v := by
  obtain ⟨h1, h2, h3, h4⟩ := h
  simp [Commit.decode, Commit.encode, Json.getField, lookupField,
    asU32_cast v.height h1, asU32_cast v.round h2, rt_block_id v.block_id h3,
    asListOf_map Signature.decode Signature.encode v.signatures
      (fun s hs => rt_signature s (h4 s hs))]

theorem rt_validator (v : Validator) (h : v.WF) :
    Validator.decode (Validator.encode v) = some v := by
  obtain ⟨h1, h2, h3⟩ := h
  simp [Validator.decode, Validator.encode, Json.getField, lookupField, Json.asString,
    asU32_cast v.voting_power h1, asI64_range v.proposer_priority h2 h3]

theorem rt_validator_set (v : ValidatorSet) (h : v.WF) :
    ValidatorSet.decode (ValidatorSet.encode v) = some v := by
  simp [ValidatorSet.decode, ValidatorSet.encode, Json.getField, lookupField,
    asListOf_map Validator.decode Validator.encode v.validators
      (fun x hx => rt_validator x (h x hx))]

theorem rt_dah (v : DataAvailabilityHeader) :
    DataAvailabilityHeader.decode (DataAvailabilityHeader.encode v) = some v := by
  simp [DataAvailabilityHeader.decode, DataAvailabilityHeader.encode, Json.getField,
    lookupField, asStringList_map]

theorem rt_head (v : HeadResponse) (h : v.WF) :
    HeadResponse.decode (HeadResponse.encode v) = some v := by
  obtain ⟨h1, h2, h3⟩ := h
  simp [HeadResponse.decode, HeadResponse.encode, Json.getField, lookupField,
    rt_header v.header h1, rt_commit v.commit h2, rt_validator_set v.validator_set h3,
    rt_dah v.dah]

theorem rt_header_response (v : HeaderResponse) (h : v.WF) :
    HeaderResponse.decode (HeaderResponse.encode v) = some v := by
  obtain ⟨h1, h2, h3⟩ := h
  simp [HeaderResponse.decode, HeaderResponse.encode, Json.getField, lookupField,
    rt_header v.header h1, rt_commit v.commit h2, rt_validator_set v.validator_set h3,
    rt_dah v.dah]

theorem rt_namespaced_data (v : NamespacedDataResponse) (h : v.WF) :
    NamespacedDataResponse.decode (NamespacedDataResponse.encode v) = some v := by
  simp [NamespacedDataResponse.decode, NamespacedDataResponse.encode, Json.getField,
    lookupField, asStringList_map, asU32_cast v.height h]

theorem rt_namespaced_shares (v : NamespacedSharesResponse) (h : v.WF) :
    NamespacedSharesResponse.decode (NamespacedSharesResponse.encode v) = some v := by
  obtain ⟨sh, ht⟩ := v
  cases sh with
  | none =>
      simp [NamespacedSharesResponse.decode, NamespacedSharesResponse.encode,
        Json.getField, lookupField, encodeOptField, decodeOptField, asU32_cast ht h]
  | some xs =>
      simp [NamespacedSharesResponse.decode, NamespacedSharesResponse.encode,
        Json.getField, lookupField, encodeOptField, decodeOptField, encodeStringList,
        asListOf_map Json.asString Json.str xs (fun _ _ => rfl), asU32_cast ht h]

/-! ## Sample values used to witness the round-trip theorem -/

def sampleVersion : Version := ⟨1, 2⟩

def sampleParts : Parts := ⟨3, "ph"⟩

def sampleBlockId : BlockId := ⟨"bh", sampleParts⟩

def sampleSignature : Signature := ⟨2, "va", "2021-01-01T00:00:00Z", some "sig"⟩

def sampleCommit : Commit := ⟨7, 0, sampleBlockId, [sampleSignature]⟩

def sampleValidator : Validator := ⟨"ad", "pk", 10, -5⟩

def sampleValidatorSet : ValidatorSet := ⟨[sampleValidator]⟩

def sampleDah : DataAvailabilityHeader := ⟨["r"], ["c"]⟩

def sampleHeader : Header :=
  ⟨sampleVersion, "chain", 7, "2021-01-01T00:00:00Z", sampleBlockId,
   "lch", "dh", "vh", "nvh", "ch", "ah", "lrh", "eh", "pa"⟩

def sampleHead : HeadResponse := ⟨sampleHeader, sampleCommit, sampleValidatorSet, sampleDah⟩

def sampleHeaderResponse : HeaderResponse :=
  ⟨sampleHeader, sampleCommit, sampleValidatorSet, sampleDah⟩

/-! ## The claims -/

/-- C1: for every Context and endpoint path `p`, the generic call primitive
issues its single HTTP GET against exactly `base_url ++ "/" ++ p` (one
request, so no retry), returns a transport error verbatim when the server
fails, returns the decoded value when the body deserialises, and returns a
decode error when it does not. -/
theorem call_single_get_exact_url {T : Type} (ctx : Context) (dec : Json → Option T)
    (p : String) (server : Server) :
    (ctx.call dec p server).requests = [ctx.base_url ++ "/" ++ p] ∧
    (∀ e, server (ctx.base_url ++ "/" ++ p) = .error e →
      (ctx.call dec p server).result = .error (.transport e)) ∧
    (∀ body v, server (ctx.base_url ++ "/" ++ p) = .ok body →
      decodeBody dec body = some v → (ctx.call dec p server).result = .ok v) ∧
    (∀ body, server (ctx.base_url ++ "/" ++ p) = .ok body →
      decodeBody dec body = none → (ctx.call dec p server).result = .error .decode) := by
  refine ⟨rfl, ?_, ?_, ?_⟩
  · intro e he
    simp [Context.call, he]
  · intro body v hb hd
    simp [Context.call, hb, hd]
  · intro body hb hd
    simp [Context.call, hb, hd]

/-- Witness for C1 at a concrete context, path and server. -/
theorem call_single_get_exact_url_witness :
    ((Context.new DEFAULT_BASE_URL).call Json.asBool "head"
        (fun _ => .ok (.json (.bool true)))).requests = ["http://localhost:26658/head"] ∧
    ((Context.new DEFAULT_BASE_URL).call Json.asBool "head"
        (fun _ => .ok (.json (.bool true)))).result = .ok true := by
  have h := call_single_get_exact_url (Context.new DEFAULT_BASE_URL) Json.asBool "head"
    (fun _ => .ok (.json (.bool true)))
  exact ⟨h.1, h.2.2.1 (.json (.bool true)) true rfl rfl⟩

/-- C2: for every response type and every value of it, serde decoding of the
serde encoding gives back the same value (decode ∘ encode = identity), the
well-formedness hypotheses being exactly the machine-integer ranges every
value of the Rust type carries by construction. -/
theorem response_roundtrip :
    (∀ v : BalanceResponse, v.WF →
      BalanceResponse.decode (BalanceResponse.encode v) = some v) ∧
    (∀ v : DataAvailableResponse,
      DataAvailableResponse.decode (DataAvailableResponse.encode v) = some v) ∧
    (∀ v : HeadResponse, v.WF → HeadResponse.decode (HeadResponse.encode v) = some v) ∧
    (∀ v : HeaderResponse, v.WF →
      HeaderResponse.decode (HeaderResponse.encode v) = some v) ∧
    (∀ v : NamespacedDataResponse, v.WF →
      NamespacedDataResponse.decode (NamespacedDataResponse.encode v) = some v) ∧
    (∀ v : NamespacedSharesResponse, v.WF →
      NamespacedSharesResponse.decode (NamespacedSharesResponse.encode v) = some v) ∧
    (∀ v : Header, v.WF → Header.decode (Header.encode v) = some v) ∧
    (∀ v : Version, v.WF → Version.decode (Version.encode v) = some v) ∧
    (∀ v : BlockId, v.WF → BlockId.decode (BlockId.encode v) = some v) ∧
    (∀ v : Parts, v.WF → Parts.decode (Parts.encode v) = some v) ∧
    (∀ v : Commit, v.WF → Commit.decode (Commit.encode v) = some v) ∧
    (∀ v : Signature, v.WF → Signature.decode (Signature.encode v) = some v) ∧
    (∀ v : ValidatorSet, v.WF → ValidatorSet.decode (ValidatorSet.encode v) = some v) ∧
    (∀ v : Validator, v.WF → Validator.decode (Validator.encode v) = some v) ∧
    (∀ v : DataAvailabilityHeader,
      DataAvailabilityHeader.decode (DataAvailabilityHeader.encode v) = some v) :=
  ⟨rt_balance, rt_data_available, rt_head, rt_header_response, rt_namespaced_data,
   rt_namespaced_shares, rt_header, rt_version, rt_block_id, rt_parts, rt_commit,
   rt_signature, rt_validator_set, rt_validator, rt_dah⟩

/-- Witness for C2 at concrete values of every response type. -/
theorem response_roundtrip_witness :
    BalanceResponse.decode (BalanceResponse.encode ⟨"utia", 42⟩) = some ⟨"utia", 42⟩ ∧
    DataAvailableResponse.decode (DataAvailableResponse.encode ⟨true, "0.99"⟩)
      = some ⟨true, "0.99"⟩ ∧
    HeadResponse.decode (HeadResponse.encode sampleHead) = some sampleHead ∧
    HeaderResponse.decode (HeaderResponse.encode sampleHeaderResponse)
      = some sampleHeaderResponse ∧
    NamespacedDataResponse.decode (NamespacedDataResponse.encode ⟨["d"], 7⟩)
      = some ⟨["d"], 7⟩ ∧
    NamespacedSharesResponse.decode (NamespacedSharesResponse.encode ⟨some ["s"], 7⟩)
      = some ⟨some ["s"], 7⟩ ∧
    Header.decode (Header.encode sampleHeader) = some sampleHeader ∧
    Version.decode (Version.encode sampleVersion) = some sampleVersion ∧
    BlockId.decode (BlockId.encode sampleBlockId) = some sampleBlockId ∧
    Parts.decode (Parts.encode sampleParts) = some sampleParts ∧
    Commit.decode (Commit.encode sampleCommit) = some sampleCommit ∧
    Signature.decode (Signature.encode sampleSignature) = some sampleSignature ∧
    ValidatorSet.decode (ValidatorSet.encode sampleValidatorSet)
      = some sampleValidatorSet ∧
    Validator.decode (Validator.encode sampleValidator) = some sampleValidator ∧
    DataAvailabilityHeader.decode (DataAvailabilityHeader.encode sampleDah)
      = some sampleDah := by
  refine ⟨?_, ?_, ?_, ?_, ?_, ?_, ?_, ?_, ?_, ?_, ?_, ?_, ?_, ?_, ?_⟩
  · exact response_roundtrip.1 ⟨"utia", 42⟩ (by decide)
  · exact response_roundtrip.2.1 ⟨true, "0.99"⟩
  · exact response_roundtrip.2.2.1 sampleHead (by decide)
  · exact response_roundtrip.2.2.2.1 sampleHeaderResponse (by decide)
  · exact response_roundtrip.2.2.2.2.1 ⟨["d"], 7⟩ (by decide)
  · exact response_roundtrip.2.2.2.2.2.1 ⟨some ["s"], 7⟩ (by decide)
  · exact response_roundtrip.2.2.2.2.2.2.1 sampleHeader (by decide)
  · exact response_roundtrip.2.2.2.2.2.2.2.1 sampleVersion (by decide)
  · exact response_roundtrip.2.2.2.2.2.2.2.2.1 sampleBlockId (by decide)
  · exact response_roundtrip.2.2.2.2.2.2.2.2.2.1 sampleParts (by decide)
  · exact response_roundtrip.2.2.2.2.2.2.2.2.2.2.1 sampleCommit (by decide)
  · exact response_roundtrip.2.2.2.2.2.2.2.2.2.2.2.1 sampleSignature (by decide)
  · exact response_roundtrip.2.2.2.2.2.2.2.2.2.2.2.2.1 sampleValidatorSet (by decide)
  · exact response_roundtrip.2.2.2.2.2.2.2.2.2.2.2.2.2.1 sampleValidator (by decide)
  · exact response_roundtrip.2.2.2.2.2.2.2.2.2.2.2.2.2.2 sampleDah

/-- C3: `balance(None)` composes the path `balance` and `balance(Some addr)`
composes `balance/{addr}`; the two paths (and the two full URLs) differ for
every address string. -/
theorem balance_paths_differ (ctx : Context) (addr : String) (server : Server) :
    (ctx.balance (some addr) server).requests
      = [ctx.base_url ++ "/" ++ (ENDPOINT_BALANCE ++ "/" ++ addr)] ∧
    (ctx.balance none server).requests = [ctx.base_url ++ "/" ++ ENDPOINT_BALANCE] ∧
    ENDPOINT_BALANCE ++ "/" ++ addr ≠ ENDPOINT_BALANCE ∧
    ctx.base_url ++ "/" ++ (ENDPOINT_BALANCE ++ "/" ++ addr)
      ≠ ctx.base_url ++ "/" ++ ENDPOINT_BALANCE := by
  refine ⟨rfl, rfl, ?_, ?_⟩
  · intro hEq
    have hLen := congrArg String.length hEq
    simp only [String.length_append] at hLen
    have h7 : ENDPOINT_BALANCE.length = 7 := rfl
    have h1 : "/".length = 1 := rfl
    omega
  · intro hEq
    have hLen := congrArg String.length hEq
    simp only [String.length_append] at hLen
    have h1 : "/".length = 1 := rfl
    omega

/-- C4: with no height, `namespaced_data` and `namespaced_shares` compose
exactly `namespaced_data/{id}` and `namespaced_shares/{id}` (no height
segment, no default); with a height they compose
`namespaced_data/{id}/height/{h}` and `namespaced_shares/{id}/height/{h}`. -/
theorem namespaced_height_segment (ctx : Context) (id : String) (ht : Nat)
    (server : Server) :
    (ctx.namespaced_data id none server).requests
      = [ctx.base_url ++ "/" ++ (ENDPOINT_NAMESPACED_DATA ++ "/" ++ id)] ∧
    (ctx.namespaced_shares id none server).requests
      = [ctx.base_url ++ "/" ++ (ENDPOINT_NAMESPACED_SHARES ++ "/" ++ id)] ∧
    (ctx.namespaced_data id (some ht) server).requests
      = [ctx.base_url ++ "/"
          ++ (ENDPOINT_NAMESPACED_DATA ++ "/" ++ id ++ "/" ++ KEY_HEIGHT ++ "/"
              ++ Nat.repr ht)] ∧
    (ctx.namespaced_shares id (some ht) server).requests
      = [ctx.base_url ++ "/"
          ++ (ENDPOINT_NAMESPACED_SHARES ++ "/" ++ id ++ "/" ++ KEY_HEIGHT ++ "/"
              ++ Nat.repr ht)] :=
  ⟨rfl, rfl, rfl, rfl⟩

/-- C5: `header(h)` and `namespaced_data(id, Some h)` embed exactly the
decimal rendering `Nat.repr h` of the unsigned height as a path segment. -/
theorem height_decimal_in_path (ctx : Context) (ht : Nat) (id : String)
    (server : Server) :
    (ctx.header ht server).requests
      = [ctx.base_url ++ "/" ++ (ENDPOINT_HEADER ++ "/" ++ Nat.repr ht)] ∧
    (ctx.namespaced_data id (some ht) server).requests
      = [ctx.base_url ++ "/"
          ++ (ENDPOINT_NAMESPACED_DATA ++ "/" ++ id ++ "/" ++ KEY_HEIGHT ++ "/"
              ++ Nat.repr ht)] ∧
    toString ht = Nat.repr ht :=
  ⟨rfl, rfl, rfl⟩

/-- C6: an operation's failure is exactly one of two kinds, transport or
decode; against a server answering every URL with a body that is not valid
JSON, every one of the six operations fails with a decode error, never a
transport error. -/
theorem raw_body_decode_error (ctx : Context) (server : Server) (s : String)
    (addr : Option String) (id : String) (hOpt : Option Nat) (ht : Nat)
    (hs : ∀ u, server u = .ok (.raw s)) :
    (ctx.balance addr server).result = .error .decode ∧
    (ctx.data_available ht server).result = .error .decode ∧
    (ctx.head server).result = .error .decode ∧
    (ctx.header ht server).result = .error .decode ∧
    (ctx.namespaced_data id hOpt server).result = .error .decode ∧
    (ctx.namespaced_shares id hOpt server).result = .error .decode ∧
    (∀ r : CallError, (∃ e, r = .transport e) ∨ r = .decode) := by
  refine ⟨?_, ?_, ?_, ?_, ?_, ?_, ?_⟩
  · cases addr <;> simp [Context.balance, Context.call, decodeBody, hs]
  · simp [Context.data_available, Context.call, decodeBody, hs]
  · simp [Context.head, Context.call, decodeBody, hs]
  · simp [Context.header, Context.call, decodeBody, hs]
  · cases hOpt <;> simp [Context.namespaced_data, Context.call, decodeBody, hs]
  · cases hOpt <;> simp [Context.namespaced_shares, Context.call, decodeBody, hs]
  · intro r
    cases r with
    | transport e => exact .inl ⟨e, rfl⟩
    | decode => exact .inr rfl

/-- Witness for C6 against a concrete stub server returning a non-JSON body. -/
theorem raw_body_decode_error_witness :
    ((Context.new DEFAULT_BASE_URL).balance (some "0")
        (fun _ => .ok (.raw "oops"))).result = .error .decode ∧
    ((Context.new DEFAULT_BASE_URL).head (fun _ => .ok (.raw "oops"))).result
      = .error .decode := by
  have h := raw_body_decode_error (Context.new DEFAULT_BASE_URL)
    (fun _ => .ok (.raw "oops")) "oops" (some "0") "ns" (some 1) 1 (fun _ => rfl)
  exact ⟨h.1, h.2.2.1⟩

/-- C7: `new(base_url)` stores the base URL unchanged (and, being pure value
construction, cannot fail); the Context is never mutated, so every call on
the same Context targets `base_url ++ "/" ++ endpoint` with the same stored
base URL. -/
theorem new_stores_base_url (b : String) :
    (Context.new b).base_url = b ∧
    (∀ (T : Type) (dec : Json → Option T) (e : String) (server : Server),
      ((Context.new b).call dec e server).requests = [b ++ "/" ++ e]) :=
  ⟨rfl, fun _ _ _ _ => rfl⟩

/-- A balance body whose `amount` is negative or exceeds `2 ^ 32 - 1` does
not deserialise. -/
theorem balance_decode_none_of_bad_amount (fields : List (String × Json)) (a : Int)
    (hlook : lookupField fields "amount" = some (.num a))
    (hrange : a < 0 ∨ (2 : Int) ^ 32 - 1 < a) :
    BalanceResponse.decode (.obj fields) = none := by
  have hnone : Json.asU32 (.num a) = none := asU32_out_of_range a hrange
  simp only [BalanceResponse.decode, Json.getField]
  cases hd : (lookupField fields "denom").bind Json.asString with
  | none => simp [hd]
  | some d => simp [hd, hlook, hnone]

/-- C8: decoding a balance body succeeds only with an `amount` representable
in 32 unsigned bits — any negative or above-`2 ^ 32 - 1` amount makes the
decode (and thus the balance operation) fail with a decode error — while
request heights are embedded for the whole 64-bit unsigned range. -/
theorem balance_amount_is_u32 :
    (∀ (fields : List (String × Json)) (a : Int),
        lookupField fields "amount" = some (.num a) →
        (a < 0 ∨ (2 : Int) ^ 32 - 1 < a) →
        BalanceResponse.decode (.obj fields) = none) ∧
    (∀ (j : Json) (v : BalanceResponse), BalanceResponse.decode j = some v →
        v.amount < 2 ^ 32) ∧
    (∀ (ctx : Context) (server : Server) (fields : List (String × Json)) (a : Int),
        server (ctx.base_url ++ "/" ++ ENDPOINT_BALANCE) = .ok (.json (.obj fields)) →
        lookupField fields "amount" = some (.num a) →
        (a < 0 ∨ (2 : Int) ^ 32 - 1 < a) →
        (ctx.balance none server).result = .error .decode) ∧
    (∀ (ctx : Context) (ht : Nat) (server : Server), ht < 2 ^ 64 →
        (ctx.data_available ht server).requests
          = [ctx.base_url ++ "/" ++ (ENDPOINT_DATA_AVAILABLE ++ "/" ++ Nat.repr ht)]) := by
  refine ⟨balance_decode_none_of_bad_amount, ?_, ?_, ?_⟩
  · intro j v hdec
    simp only [BalanceResponse.decode, Option.bind_eq_some, Option.some.injEq] at hdec
    obtain ⟨denom, hdenom, amount, ⟨ja, hja, hasu⟩, hv⟩ := hdec
    have hlt := asU32_some_lt ja amount hasu
    subst hv
    exact hlt
  · intro ctx server fields a hserver hlook hrange
    have hnone := balance_decode_none_of_bad_amount fields a hlook hrange
    simp [Context.balance, Context.call, hserver, decodeBody, hnone]
  · intro ctx ht server hht
    rfl

/-- Witness for C8: a negative amount and a `2 ^ 32` amount are rejected,
and a maximal 64-bit height is embedded in the data_available path. -/
theorem balance_amount_is_u32_witness :
    BalanceResponse.decode
        (.obj [("denom", .str "utia"), ("amount", .num (-1))]) = none ∧
    BalanceResponse.decode
        (.obj [("denom", .str "utia"), ("amount", .num 4294967296)]) = none ∧
    ((Context.new DEFAULT_BASE_URL).data_available 18446744073709551615
        (fun _ => .ok (.raw "x"))).requests
      = ["http://localhost:26658/data_available/18446744073709551615"] := by
  refine ⟨?_, ?_, ?_⟩
  · exact balance_amount_is_u32.1 [("denom", .str "utia"), ("amount", .num (-1))]
      (-1) rfl (by norm_num)
  · exact balance_amount_is_u32.1 [("denom", .str "utia"), ("amount", .num 4294967296)]
      4294967296 rfl (by norm_num)
  · exact balance_amount_is_u32.2.2.2 (Context.new DEFAULT_BASE_URL) 18446744073709551615
      (fun _ => .ok (.raw "x")) (by norm_num)

/-- C9: a namespaced_shares body decodes with `shares = none` when the field
is absent or `null`, while a namespaced_data body with no `data` field fails
to decode. -/
theorem shares_optional_data_required :
    (∀ (fields : List (String × Json)) (n : Nat), n < 2 ^ 32 →
        lookupField fields "shares" = none →
        lookupField fields "height" = some (.num n) →
        NamespacedSharesResponse.decode (.obj fields) = some ⟨none, n⟩) ∧
    (∀ (fields : List (String × Json)) (n : Nat), n < 2 ^ 32 →
        lookupField fields "shares" = some .null →
        lookupField fields "height" = some (.num n) →
        NamespacedSharesResponse.decode (.obj fields) = some ⟨none, n⟩) ∧
    (∀ fields : List (String × Json), lookupField fields "data" = none →
        NamespacedDataResponse.decode (.obj fields) = none) := by
  refine ⟨?_, ?_, ?_⟩
  · intro fields n hn hsh hht
    simp [NamespacedSharesResponse.decode, Json.getField, hsh, hht, decodeOptField,
      asU32_cast n hn]
  · intro fields n hn hsh hht
    simp [NamespacedSharesResponse.decode, Json.getField, hsh, hht, decodeOptField,
      asU32_cast n hn]
  · intro fields hd
    simp [NamespacedDataResponse.decode, Json.getField, hd]

/-- Witness for C9 at concrete bodies. -/
theorem shares_optional_data_required_witness :
    NamespacedSharesResponse.decode (.obj [("height", .num 7)]) = some ⟨none, 7⟩ ∧
    NamespacedSharesResponse.decode (.obj [("shares", .null), ("height", .num 7)])
      = some ⟨none, 7⟩ ∧
    NamespacedDataResponse.decode (.obj [("height", .num 7)]) = none := by
  refine ⟨?_, ?_, ?_⟩
  · exact shares_optional_data_required.1 [("height", .num 7)] 7 (by decide) rfl rfl
  · exact shares_optional_data_required.2.1 [("shares", .null), ("height", .num 7)] 7
      (by decide) rfl rfl
  · exact shares_optional_data_required.2.2 [("height", .num 7)] rfl

/-- C10: the namespace id (and the balance address) is embedded verbatim in
the composed path, with no validation or escaping; an id containing `/`
yields extra path segments, and an empty id yields an empty trailing
segment. -/
theorem id_embedded_verbatim (ctx : Context) (id addr : String) (server : Server) :
    (ctx.namespaced_data id none server).requests
      = [ctx.base_url ++ "/" ++ (ENDPOINT_NAMESPACED_DATA ++ "/" ++ id)] ∧
    (ctx.balance (some addr) server).requests
      = [ctx.base_url ++ "/" ++ (ENDPOINT_BALANCE ++ "/" ++ addr)] ∧
    splitSlash (ENDPOINT_NAMESPACED_DATA ++ "/" ++ "a/b").data
      = ["namespaced_data".data, "a".data, "b".data] ∧
    splitSlash (ENDPOINT_NAMESPACED_DATA ++ "/" ++ "").data
      = ["namespaced_data".data, "".data] := by
  refine ⟨rfl, rfl, ?_, ?_⟩ <;> decide

end Celestia
